import Mathlib

/-!
Shallow embedding of the Trading-display refresh engine (src/main.rs).

Provider JSON responses are modelled by an inductive `Json` mirroring the
subset of `serde_json::Value` the program consumes; numeric fields are
string-encoded and parsed to exact rationals (`ℚ`), standing in for the
program's `f64` arithmetic.  Fallible network calls are modelled by
`Option`-valued outcome functions supplied as inputs: `none` is a
transport/decode failure (Rust `Err`), `some j` a successfully decoded
body `j`.  The run loop of `main` becomes a pure step function over an
explicit state and a per-cycle input record.
-/

/-- Subset of `serde_json::Value` consumed by the program. -/
inductive Json where
  | null : Json
  | str : String → Json
  | num : ℚ → Json
  | bool : Bool → Json
  | arr : List Json → Json
  | obj : List (String × Json) → Json

/-- `serde_json` immutable indexing `v["key"]`: field lookup on objects,
`Null` for a missing key or a non-object receiver. -/
def Json.get (j : Json) (key : String) : Json :=
  match j with
  | .obj fields =>
    match fields.find? (fun p => p.1 == key) with
    | some p => p.2
    | none => .null
  | _ => .null

/-- `Value::as_array`. -/
def Json.asArray : Json → Option (List Json)
  | .arr xs => some xs
  | _ => none

/-- `Value::as_str`. -/
def Json.asStr : Json → Option String
  | .str s => some s
  | _ => none

/-- Value of a digit string, most significant first. -/
def natOfDigits (cs : List Char) : ℕ :=
  cs.foldl (fun acc c => acc * 10 + (c.toNat - 48)) 0

/-- Decimal fragment of Rust's `str::parse::<f64>`: optional sign, integer
digits, optional `.` and fraction digits, at least one digit overall.
Exponent and non-finite forms are not modelled; the provider encodes plain
decimals.  `none` is Rust's `Err`. -/
def parseF64 (s : String) : Option ℚ :=
  let cs := s.data
  let signBody : ℚ × List Char :=
    match cs with
    | '-' :: rest => (-1, rest)
    | '+' :: rest => (1, rest)
    | _ => (1, cs)
  let sign := signBody.1
  let body := signBody.2
  let intDigits := body.takeWhile Char.isDigit
  match body.dropWhile Char.isDigit with
  | [] =>
    if intDigits.isEmpty then none
    else some (sign * (natOfDigits intDigits : ℚ))
  | '.' :: fracDigits =>
    if fracDigits.all Char.isDigit && !(intDigits.isEmpty && fracDigits.isEmpty) then
      some (sign *
        ((natOfDigits intDigits : ℚ) +
          (natOfDigits fracDigits : ℚ) / (10 : ℚ) ^ fracDigits.length))
    else none
  | _ => none

/-- The inline close-price extraction used throughout `main.rs`:
`point["close"].as_str().unwrap_or("0").parse().unwrap_or(0.0)`. -/
def close_price (point : Json) : ℚ :=
  (parseF64 (((point.get "close").asStr).getD "0")).getD 0

/-- `fetch_all_stock_data`: one fetch per symbol, in symbol order
(`join_all` preserves order), failures logged and filtered out. -/
def fetch_all_stock_data (quoteOutcome : String → Option Json)
    (symbols : List String) : List (String × Json) :=
  symbols.filterMap (fun symbol => (quoteOutcome symbol).map (fun d => (symbol, d)))

/-- `fetch_relevant_news`: walk the cycle's quote results; for a series with
more than one point and a positive previous close, compute the percent
change and, when it exceeds 7.0, attempt the news fetch, keeping only
successes. -/
def fetch_relevant_news (newsOutcome : String → Option Json) :
    List (String × Json) → List (String × Json)
  | [] => []
  | (symbol, data) :: rest =>
    let tail := fetch_relevant_news newsOutcome rest
    match (data.get "values").asArray with
    | some values =>
      match values with
      | latest :: previous :: _ =>
        let latest_price := close_price latest
        let previous_price := close_price previous
        if previous_price > 0 then
          let percent_change := ((latest_price - previous_price) / previous_price) * 100
          if percent_change > 7 then
            match newsOutcome symbol with
            | some news => (symbol, news) :: tail
            | none => tail
          else tail
        else tail
      | _ => tail
    | none => tail

/-- The trigger evaluation inlined in `fetch_relevant_news`, extracted as a
function of one quote response: `some pc` when the series has at least two
points and the previous close is positive, `none` otherwise. -/
def trigger_percent_change (data : Json) : Option ℚ :=
  match (data.get "values").asArray with
  | some (latest :: previous :: _) =>
    let latest_price := close_price latest
    let previous_price := close_price previous
    if previous_price > 0 then
      some (((latest_price - previous_price) / previous_price) * 100)
    else none
  | _ => none

/-- Whether `fetch_relevant_news` attempts a news fetch for this quote
response: the percent change is defined and exceeds 7.0. -/
def flagged_for_news (data : Json) : Bool :=
  match trigger_percent_change data with
  | some pc => pc > 7
  | none => false

/-- `struct TechnicalIndicators` from `main.rs`. -/
structure TechnicalIndicators where
  sma50 : Option ℚ
  sma200 : Option ℚ
  rsi : Option ℚ
  macd : Option ℚ
  bb_upper : Option ℚ
  bb_middle : Option ℚ
  bb_lower : Option ℚ
deriving DecidableEq

/-- `fetch_indicator_value`: `response = none` models a transport/decode
failure (`Err` via `?`), which the function propagates; the outer `Option`
of the result is Rust's `Result`, the inner one the indicator's optional
value.  A present but unparseable keyed field becomes `Some 0.0`
(`value_str.parse().unwrap_or(0.0)`). -/
def fetch_indicator_value (response : Option Json) (indicator : String) :
    Option (Option ℚ) :=
  response.map (fun json =>
    match (json.get "values").asArray with
    | some values =>
      match values.head? with
      | some latest =>
        match (latest.get indicator).asStr with
        | some value_str => some ((parseF64 value_str).getD 0)
        | none => none
      | none => none
    | none => none)

/-- `fetch_bbands`: one call yielding the three bands; each band parses
independently via `and_then(|s| s.parse().ok())`. -/
def fetch_bbands (response : Option Json) :
    Option (Option ℚ × Option ℚ × Option ℚ) :=
  response.map (fun json =>
    match (json.get "values").asArray with
    | some values =>
      match values.head? with
      | some latest =>
        (((latest.get "real_upper_band").asStr).bind parseF64,
         ((latest.get "real_middle_band").asStr).bind parseF64,
         ((latest.get "real_lower_band").asStr).bind parseF64)
      | none => (none, none, none)
    | none => (none, none, none))

/-- The five provider responses one instrument's indicator refresh consumes
(`none` = transport/decode failure of that call). -/
structure IndicatorResponses where
  sma50resp : Option Json
  sma200resp : Option Json
  rsiresp : Option Json
  macdresp : Option Json
  bbandsresp : Option Json

/-- `fetch_technical_indicators`: the five sub-calls in source order, each
behind `?`, so any single sub-call failure fails the whole set (`none`). -/
def fetch_technical_indicators (r : IndicatorResponses) :
    Option TechnicalIndicators := do
  let sma50 ← fetch_indicator_value r.sma50resp "sma"
  let sma200 ← fetch_indicator_value r.sma200resp "sma"
  let rsi ← fetch_indicator_value r.rsiresp "rsi"
  let macd ← fetch_indicator_value r.macdresp "macd"
  let bb ← fetch_bbands r.bbandsresp
  pure ⟨sma50, sma200, rsi, macd, bb.1, bb.2.1, bb.2.2⟩

/-- `fetch_all_technical_data`: one `fetch_technical_indicators` per symbol
in symbol order, failures logged and filtered out. -/
def fetch_all_technical_data (responses : String → IndicatorResponses)
    (symbols : List String) : List (String × TechnicalIndicators) :=
  symbols.filterMap (fun symbol =>
    (fetch_technical_indicators (responses symbol)).map (fun ind => (symbol, ind)))

/-- Colors used by the TUI styles in `main.rs`. -/
inductive TuiColor where
  | green
  | red
  | blue
  | magenta
  | yellow
deriving DecidableEq

/-- A styled text span (`Span::styled`). -/
structure StyledSpan where
  text : String
  color : TuiColor
deriving DecidableEq

/-- Rendering of `format!("{:.2}", x)` over the rational model: the value
rounded to two decimal places (tie behavior approximated by `round`). -/
def formatFixed2 (q : ℚ) : String :=
  let scaled : ℤ := round (q * 100)
  let sign := if scaled < 0 then "-" else ""
  let n := scaled.natAbs
  let fracPart := n % 100
  sign ++ toString (n / 100) ++ "." ++
    (if fracPart < 10 then "0" else "") ++ toString fracPart

/-- `format_stock_data`: one line per quote response with a nonempty
`values` array; a change span is appended when a second point exists and
its close is positive, red "dropped" below −1.0, green "increased"
otherwise. -/
def format_stock_data : List (String × Json) → List (List StyledSpan)
  | [] => []
  | (symbol, data) :: rest =>
    let tail := format_stock_data rest
    match (data.get "values").asArray with
    | some values =>
      match values with
      | latest :: restVals =>
        let latest_price := close_price latest
        let priceSpans : List StyledSpan :=
          [⟨symbol ++ ": " ++ formatFixed2 latest_price, TuiColor.green⟩]
        let spans :=
          match restVals with
          | previous :: _ =>
            let previous_price := close_price previous
            if previous_price > 0 then
              let percent_change := ((latest_price - previous_price) / previous_price) * 100
              let change_text :=
                if percent_change < -1 then
                  " dropped " ++ formatFixed2 percent_change ++ "%"
                else
                  " increased " ++ formatFixed2 percent_change ++ "%"
              let change_color :=
                if percent_change < -1 then TuiColor.red else TuiColor.green
              priceSpans ++ [⟨change_text, change_color⟩]
            else priceSpans
          | [] => priceSpans
        spans :: tail
      | [] => tail
    | none => tail

/-- `format_news_data`: one blue line per article title, per instrument. -/
def format_news_data : List (String × Json) → List StyledSpan
  | [] => []
  | (symbol, news) :: rest =>
    let tail := format_news_data rest
    match (news.get "data").asArray with
    | some articles =>
      (articles.map (fun article =>
        ⟨symbol ++ ": " ++ ((article.get "title").asStr).getD "No title",
         TuiColor.blue⟩)) ++ tail
    | none => tail

/-- `format_indicator_data`: one magenta line per instrument, every field
printed with `unwrap_or(0.0)`. -/
def format_indicator_data (technicalData : List (String × TechnicalIndicators)) :
    List StyledSpan :=
  technicalData.map (fun p =>
    ⟨p.1 ++ " | SMA50: " ++ formatFixed2 (p.2.sma50.getD 0) ++
      " | SMA200: " ++ formatFixed2 (p.2.sma200.getD 0) ++
      " | RSI: " ++ formatFixed2 (p.2.rsi.getD 0) ++
      " | MACD: " ++ formatFixed2 (p.2.macd.getD 0) ++
      " | BB: [" ++ formatFixed2 (p.2.bb_upper.getD 0) ++
      ", " ++ formatFixed2 (p.2.bb_middle.getD 0) ++
      ", " ++ formatFixed2 (p.2.bb_lower.getD 0) ++ "]",
     TuiColor.magenta⟩)

/-- `TECH_UPDATE_INTERVAL` from `main.rs`. -/
def TECH_UPDATE_INTERVAL : ℕ := 10

/-- The loop-carried state of `main`: the cycle counter and the stored
technical-indicator map. -/
structure LoopState where
  cycle_count : ℕ
  technical_data : List (String × TechnicalIndicators)

/-- One cycle's external inputs: the provider outcome for every call the
cycle may issue, and the key (if any) seen by the post-draw event poll. -/
structure CycleInputs where
  quoteOutcome : String → Option Json
  newsOutcome : String → Option Json
  techResponses : String → IndicatorResponses
  pollEvent : Option Char

/-- What one cycle publishes to the terminal: the three data maps and
their rendered paragraph contents. -/
structure Snapshot where
  stock_data : List (String × Json)
  news_data : List (String × Json)
  technical_data : List (String × TechnicalIndicators)
  stockLines : List (List StyledSpan)
  newsLines : List StyledSpan
  indicatorLines : List StyledSpan

/-- One iteration of the loop body in `main`: bump the counter, fetch
quotes, fetch triggered news, refresh indicators on every
`TECH_UPDATE_INTERVAL`-th cycle, draw (assemble the snapshot), then poll
for the quit key.  Returns the next state, the published snapshot, and
whether the loop breaks. -/
def run_cycle (symbols : List String) (st : LoopState) (inputs : CycleInputs) :
    LoopState × Snapshot × Bool :=
  let cycle_count := st.cycle_count + 1
  let stock_data := fetch_all_stock_data inputs.quoteOutcome symbols
  let news_data := fetch_relevant_news inputs.newsOutcome stock_data
  let technical_data :=
    if cycle_count % TECH_UPDATE_INTERVAL = 0 then
      fetch_all_technical_data inputs.techResponses symbols
    else st.technical_data
  let snapshot : Snapshot :=
    ⟨stock_data, news_data, technical_data,
     format_stock_data stock_data, format_news_data news_data,
     format_indicator_data technical_data⟩
  let quit := inputs.pollEvent = some 'q'
  (⟨cycle_count, technical_data⟩, snapshot, quit)

/-- The run loop of `main` over a finite trace of per-cycle inputs,
starting from a given state: publishes one snapshot per completed cycle
and stops after the first cycle whose poll sees the quit key. -/
def run_loop (symbols : List String) : LoopState → List CycleInputs → List Snapshot
  | _, [] => []
  | st, inputs :: rest =>
    let r := run_cycle symbols st inputs
    if r.2.2 then [r.2.1] else r.2.1 :: run_loop symbols r.1 rest

/-- Initial state of `main`: `cycle_count = 0`, empty indicator map. -/
def initialState : LoopState := ⟨0, []⟩

theorem fetch_relevant_news_eq_filterMap (newsOutcome : String → Option Json)
    (stockData : List (String × Json)) :
    fetch_relevant_news newsOutcome stockData =
      stockData.filterMap (fun p =>
        if flagged_for_news p.2 then
          (newsOutcome p.1).map (fun n => (p.1, n))
        else none) := by
  induction stockData with
  | nil => rfl
  | cons hd tl ih =>
    obtain ⟨symbol, data⟩ := hd
    rw [fetch_relevant_news, List.filterMap_cons, ih]
    unfold flagged_for_news trigger_percent_change
    cases hv : (data.get "values").asArray with
    | none => simp
    | some values =>
      cases values with
      | nil => simp
      | cons latest rest =>
        cases rest with
        | nil => simp
        | cons previous rest2 =>
          by_cases hp : close_price previous > 0
          · simp only [hp, if_true]
            by_cases hpc : ((close_price latest - close_price previous) /
                close_price previous) * 100 > 7
            · simp only [hpc, decide_eq_true_eq, if_true]
              cases newsOutcome symbol <;> simp
            · simp [hpc]
          · simp [hp]

theorem mem_fetch_relevant_news (newsOutcome : String → Option Json)
    (stockData : List (String × Json)) (s : String) (n : Json) :
    (s, n) ∈ fetch_relevant_news newsOutcome stockData ↔
      (∃ d, (s, d) ∈ stockData ∧ flagged_for_news d = true) ∧
        newsOutcome s = some n := by
  rw [fetch_relevant_news_eq_filterMap, List.mem_filterMap]
  constructor
  · rintro ⟨⟨a, d⟩, hmem, hf⟩
    by_cases hfl : flagged_for_news d = true
    · rw [if_pos hfl] at hf
      obtain ⟨n2, hn2, heq⟩ := Option.map_eq_some'.mp hf
      injection heq with h1 h2
      exact ⟨⟨d, h1 ▸ hmem, hfl⟩, h1 ▸ h2 ▸ hn2⟩
    · rw [if_neg hfl] at hf
      exact absurd hf (by simp)
  · rintro ⟨⟨d, hmem, hfl⟩, hn⟩
    exact ⟨(s, d), hmem, by simp [hfl, hn]⟩

theorem mem_fetch_all_stock_data (quoteOutcome : String → Option Json)
    (symbols : List String) (s : String) (d : Json) :
    (s, d) ∈ fetch_all_stock_data quoteOutcome symbols ↔
      s ∈ symbols ∧ quoteOutcome s = some d := by
  rw [fetch_all_stock_data, List.mem_filterMap]
  constructor
  · rintro ⟨a, hmem, hf⟩
    obtain ⟨d2, hd2, heq⟩ := Option.map_eq_some'.mp hf
    injection heq with h1 h2
    subst h1
    exact ⟨hmem, h2 ▸ hd2⟩
  · rintro ⟨hmem, hq⟩
    exact ⟨s, hmem, by simp [hq]⟩

theorem mem_fetch_all_technical_data (responses : String → IndicatorResponses)
    (symbols : List String) (s : String) (d : TechnicalIndicators) :
    (s, d) ∈ fetch_all_technical_data responses symbols ↔
      s ∈ symbols ∧ fetch_technical_indicators (responses s) = some d := by
  rw [fetch_all_technical_data, List.mem_filterMap]
  constructor
  · rintro ⟨a, hmem, hf⟩
    obtain ⟨d2, hd2, heq⟩ := Option.map_eq_some'.mp hf
    injection heq with h1 h2
    subst h1
    exact ⟨hmem, h2 ▸ hd2⟩
  · rintro ⟨hmem, hq⟩
    exact ⟨s, hmem, by simp [hq]⟩

theorem filterMap_congr_of_eq {α β : Type} (f g : α → Option β) (l : List α)
    (h : ∀ a, f a = g a) : l.filterMap f = l.filterMap g := by
  induction l with
  | nil => rfl
  | cons hd tl ih => rw [List.filterMap_cons, List.filterMap_cons, h hd, ih]

/-- Concrete quote point used by witnesses. -/
def samplePoint (c : String) : Json := .obj [("close", .str c)]

/-- Concrete quote series used by witnesses, closes newest first. -/
def sampleSeries (cs : List String) : Json :=
  .obj [("values", .arr (cs.map samplePoint))]

/-- C1: for a quote series with at least two points and a positive previous
close, the percent change is `(latest − previous) / previous × 100`; it is
not computed (no signal) when fewer than two points exist or the previous
close is non-positive; and the instrument is flagged for the secondary
news fetch exactly when the percent change exceeds 7.0 — grounded in
`fetch_relevant_news`, which attempts the news call precisely for flagged
series. -/
theorem percent_change_trigger_spec (data : Json) :
    (∀ latest previous rest,
      (data.get "values").asArray = some (latest :: previous :: rest) →
      0 < close_price previous →
      trigger_percent_change data =
        some (((close_price latest - close_price previous) /
          close_price previous) * 100)) ∧
    ((∀ latest previous rest,
        (data.get "values").asArray = some (latest :: previous :: rest) →
        close_price previous ≤ 0) →
      trigger_percent_change data = none) ∧
    (flagged_for_news data = true ↔
      ∃ pc, trigger_percent_change data = some pc ∧ 7 < pc) ∧
    (∀ newsOutcome s n, (s, n) ∈ fetch_relevant_news newsOutcome [(s, data)] ↔
      flagged_for_news data = true ∧ newsOutcome s = some n) := by
  refine ⟨?_, ?_, ?_, ?_⟩
  · intro latest previous rest hv hp
    unfold trigger_percent_change
    rw [hv]
    simp only [hp, if_pos]
  · intro h
    unfold trigger_percent_change
    cases hv : (data.get "values").asArray with
    | none => rfl
    | some values =>
      match values with
      | [] => rfl
      | [x] => rfl
      | latest :: previous :: rest =>
        have hp := h latest previous rest hv
        simp [not_lt.mpr hp]
  · unfold flagged_for_news
    cases h : trigger_percent_change data with
    | none => simp
    | some pc => simp [gt_iff_lt]
  · intro newsOutcome s n
    rw [mem_fetch_relevant_news]
    constructor
    · rintro ⟨⟨d, hmem, hfl⟩, hn⟩
      simp only [List.mem_singleton, Prod.mk.injEq] at hmem
      exact ⟨hmem.2 ▸ hfl, hn⟩
    · rintro ⟨hfl, hn⟩
      exact ⟨⟨data, by simp, hfl⟩, hn⟩

/-- C1 witness: the series 110/100 has percent change 10 and is flagged;
a one-point series has no percent change; the series 104/100 is not
flagged. -/
theorem percent_change_trigger_spec_witness :
    trigger_percent_change (sampleSeries ["110", "100"]) = some 10 ∧
    flagged_for_news (sampleSeries ["110", "100"]) = true ∧
    trigger_percent_change (sampleSeries ["110"]) = none ∧
    flagged_for_news (sampleSeries ["104", "100"]) = false := by
  have h1 := (percent_change_trigger_spec (sampleSeries ["110", "100"])).1
    (samplePoint "110") (samplePoint "100") []
    (by with_unfolding_all rfl)
    (by rw [show close_price (samplePoint "100") = 100 from by
          with_unfolding_all rfl]
        norm_num)
  have h2 := (percent_change_trigger_spec (sampleSeries ["110"])).2.1
    (by intro latest previous rest hv
        rw [show ((sampleSeries ["110"]).get "values").asArray =
          some [samplePoint "110"] from by with_unfolding_all rfl] at hv
        exact absurd hv (by simp))
  refine ⟨?_, ?_, h2, ?_⟩
  · rw [h1]
    rw [show close_price (samplePoint "110") = 110 from by with_unfolding_all rfl,
        show close_price (samplePoint "100") = 100 from by with_unfolding_all rfl]
    norm_num
  · rw [((percent_change_trigger_spec (sampleSeries ["110", "100"])).2.2.1).mpr]
    refine ⟨10, ?_, by norm_num⟩
    rw [h1, show close_price (samplePoint "110") = 110 from by with_unfolding_all rfl,
        show close_price (samplePoint "100") = 100 from by with_unfolding_all rfl]
    norm_num
  · with_unfolding_all rfl

/-- C4: the quote fan-out returns normally with exactly the instruments
whose fetch succeeded (in symbol order); overriding one instrument's
outcome to failure removes exactly that instrument's entries and nothing
else; and every cycle issues the fan-out over the full tracked symbol
list, so a prior failure never shrinks the tracked set. -/
theorem stock_fanout_spec (quoteOutcome : String → Option Json)
    (symbols : List String) (s : String) :
    ((fetch_all_stock_data quoteOutcome symbols).map Prod.fst =
      symbols.filter (fun y => (quoteOutcome y).isSome)) ∧
    (∀ d, (s, d) ∈ fetch_all_stock_data quoteOutcome symbols ↔
      s ∈ symbols ∧ quoteOutcome s = some d) ∧
    (fetch_all_stock_data (fun y => if y = s then none else quoteOutcome y) symbols =
      (fetch_all_stock_data quoteOutcome symbols).filter (fun p => p.1 ≠ s)) ∧
    (∀ st inputs, (run_cycle symbols st inputs).2.1.stock_data =
      fetch_all_stock_data inputs.quoteOutcome symbols) := by
  refine ⟨?_, fun d => mem_fetch_all_stock_data quoteOutcome symbols s d, ?_, ?_⟩
  · induction symbols with
    | nil => rfl
    | cons hd tl ih =>
      rw [fetch_all_stock_data, List.filterMap_cons, List.filter_cons]
      cases hq : quoteOutcome hd with
      | none => simpa [hq] using ih
      | some d => simpa [hq] using ih
  · induction symbols with
    | nil => rfl
    | cons hd tl ih =>
      rw [fetch_all_stock_data, fetch_all_stock_data, List.filterMap_cons,
        List.filterMap_cons]
      by_cases hhd : hd = s
      · subst hhd
        cases hq : quoteOutcome hd with
        | none => simpa using ih
        | some d => simpa using ih
      · cases hq : quoteOutcome hd with
        | none => simpa [hhd] using ih
        | some d => simpa [hhd] using ih
  · intro st inputs
    rfl

/-- C4 witness: with symbols A, B, C where B's fetch fails, the fan-out
returns exactly A and C; failing C as well removes only C. -/
theorem stock_fanout_spec_witness :
    (fetch_all_stock_data
        (fun y => if y = "B" then none else some (sampleSeries ["1"]))
        ["A", "B", "C"]).map Prod.fst = ["A", "C"] ∧
    fetch_all_stock_data
        (fun y => if y = "C" then none
          else if y = "B" then none else some (sampleSeries ["1"]))
        ["A", "B", "C"] =
      (fetch_all_stock_data
          (fun y => if y = "B" then none else some (sampleSeries ["1"]))
          ["A", "B", "C"]).filter (fun p => p.1 ≠ "C") := by
  constructor
  · rw [(stock_fanout_spec
        (fun y => if y = "B" then none else some (sampleSeries ["1"]))
        ["A", "B", "C"] "C").1]
    with_unfolding_all rfl
  · exact (stock_fanout_spec
        (fun y => if y = "B" then none else some (sampleSeries ["1"]))
        ["A", "B", "C"] "C").2.2.1

/-- C6: a pair `(s, n)` is in the news result exactly when some quote
response for `s` in the current cycle's stock data is flagged and the news
fetch for `s` succeeded with `n`; within a cycle the news map is computed
from that cycle's quote results alone, identically for any carried-over
state, so nothing from prior cycles is retained. -/
theorem news_exactly_flagged_spec (newsOutcome : String → Option Json)
    (stockData : List (String × Json)) (s : String) (n : Json) :
    ((s, n) ∈ fetch_relevant_news newsOutcome stockData ↔
      (∃ d, (s, d) ∈ stockData ∧ flagged_for_news d = true) ∧
        newsOutcome s = some n) ∧
    (∀ symbols st st2 inputs,
      (run_cycle symbols st inputs).2.1.news_data =
        fetch_relevant_news inputs.newsOutcome
          (fetch_all_stock_data inputs.quoteOutcome symbols) ∧
      (run_cycle symbols st inputs).2.1.news_data =
        (run_cycle symbols st2 inputs).2.1.news_data) := by
  exact ⟨mem_fetch_relevant_news newsOutcome stockData s n,
    fun symbols st st2 inputs => ⟨rfl, rfl⟩⟩

/-- C6 witness: with a flagged series for A and an unflagged one for B,
and a news outcome that succeeds for both, the news result contains A and
not B; with a failing news outcome for A it is empty. -/
theorem news_exactly_flagged_spec_witness :
    ("A", Json.null) ∈ fetch_relevant_news (fun _ => some Json.null)
      [("A", sampleSeries ["110", "100"]), ("B", sampleSeries ["104", "100"])] ∧
    (¬ ∃ n, ("B", n) ∈ fetch_relevant_news (fun _ => some Json.null)
      [("A", sampleSeries ["110", "100"]), ("B", sampleSeries ["104", "100"])]) ∧
    (¬ ∃ n, ("A", n) ∈ fetch_relevant_news (fun _ => none)
      [("A", sampleSeries ["110", "100"])]) := by
  refine ⟨?_, ?_, ?_⟩
  · rw [(news_exactly_flagged_spec (fun _ => some Json.null)
      [("A", sampleSeries ["110", "100"]), ("B", sampleSeries ["104", "100"])]
      "A" Json.null).1]
    exact ⟨⟨sampleSeries ["110", "100"], by simp, by with_unfolding_all rfl⟩, rfl⟩
  · rintro ⟨n, hn⟩
    rw [(news_exactly_flagged_spec (fun _ => some Json.null)
      [("A", sampleSeries ["110", "100"]), ("B", sampleSeries ["104", "100"])]
      "B" n).1] at hn
    obtain ⟨⟨d, hd, hfl⟩, -⟩ := hn
    rw [List.mem_cons, List.mem_singleton] at hd
    rcases hd with h | h
    · rw [Prod.mk.injEq] at h
      exact absurd h.1 (by decide)
    · rw [Prod.mk.injEq] at h
      obtain ⟨-, h2⟩ := h
      subst h2
      rw [show flagged_for_news (sampleSeries ["104", "100"]) = false from by
        with_unfolding_all rfl] at hfl
      exact Bool.noConfusion hfl
  · rintro ⟨n, hn⟩
    rw [(news_exactly_flagged_spec (fun _ => none)
      [("A", sampleSeries ["110", "100"])] "A" n).1] at hn
    exact Option.noConfusion hn.2

/-- Indicator map of concrete values, used by witnesses and
counterexamples. -/
def sampleIndicators : TechnicalIndicators :=
  ⟨some 1, some 2, some 3, some 4, some 5, some 6, some 7⟩

/-- A successfully decoded indicator response carrying an "sma" value. -/
def goodSmaJson : Json :=
  .obj [("values", .arr [.obj [("sma", .str "42")]])]

/-- Per-instrument indicator responses whose second sub-call (SMA200)
fails in transport while the other four succeed. -/
def failingSma200 : IndicatorResponses :=
  ⟨some goodSmaJson, none, some goodSmaJson, some goodSmaJson, some goodSmaJson⟩

/-- Per-instrument indicator responses in which all five sub-calls
succeed. -/
def allGoodResponses : IndicatorResponses :=
  ⟨some goodSmaJson, some goodSmaJson, some goodSmaJson, some goodSmaJson,
   some goodSmaJson⟩

/-- Cycle inputs for witnesses: quote and news fetches fail, indicator
responses fail for symbol A (SMA200 transport error) and succeed for any
other symbol, no key event. -/
def sampleInputs : CycleInputs :=
  ⟨fun _ => none, fun _ => none,
   fun s => if s = "A" then failingSma200 else allGoodResponses, none⟩

theorem run_cycle_technical_data (symbols : List String) (st : LoopState)
    (inputs : CycleInputs) :
    (run_cycle symbols st inputs).1.technical_data =
      (if (st.cycle_count + 1) % TECH_UPDATE_INTERVAL = 0 then
        fetch_all_technical_data inputs.techResponses symbols
      else st.technical_data) ∧
    (run_cycle symbols st inputs).2.1.technical_data =
      (run_cycle symbols st inputs).1.technical_data :=
  ⟨rfl, rfl⟩

/-- C3: the stored indicator map is assigned the fresh fetch exactly on
cycles whose counter is a multiple of `TECH_UPDATE_INTERVAL` (10); on
every other cycle both the stored and the published map are carried over
unchanged; and any 10 consecutive cycle counters contain exactly one
multiple of 10, so the map is refreshed exactly once per such window. -/
theorem tech_update_cadence (symbols : List String) (st : LoopState)
    (inputs : CycleInputs) :
    ((st.cycle_count + 1) % TECH_UPDATE_INTERVAL = 0 →
      (run_cycle symbols st inputs).1.technical_data =
        fetch_all_technical_data inputs.techResponses symbols ∧
      (run_cycle symbols st inputs).2.1.technical_data =
        fetch_all_technical_data inputs.techResponses symbols) ∧
    ((st.cycle_count + 1) % TECH_UPDATE_INTERVAL ≠ 0 →
      (run_cycle symbols st inputs).1.technical_data = st.technical_data ∧
      (run_cycle symbols st inputs).2.1.technical_data = st.technical_data) ∧
    (∀ n : ℕ, ∃! k, k ∈ Finset.Ico (n + 1) (n + 11) ∧
      k % TECH_UPDATE_INTERVAL = 0) := by
  have h10 : TECH_UPDATE_INTERVAL = 10 := rfl
  obtain ⟨h1, h2⟩ := run_cycle_technical_data symbols st inputs
  refine ⟨?_, ?_, ?_⟩
  · intro h
    rw [h1, if_pos h] at *
    exact ⟨rfl, h2⟩
  · intro h
    rw [h1, if_neg h] at *
    exact ⟨rfl, h2⟩
  · intro n
    refine ⟨n + 10 - n % 10, ⟨?_, ?_⟩, ?_⟩
    · rw [Finset.mem_Ico]
      omega
    · rw [h10]
      omega
    · intro y hy
      rw [Finset.mem_Ico] at hy
      rw [h10] at hy
      omega

/-- C3 witness: from counter 9 the 10th cycle refreshes the map; from
counter 5 the map and its published copy are carried over unchanged. -/
theorem tech_update_cadence_witness :
    (run_cycle ["A"] ⟨9, [("A", sampleIndicators)]⟩ sampleInputs).1.technical_data =
      fetch_all_technical_data sampleInputs.techResponses ["A"] ∧
    (run_cycle ["A"] ⟨5, [("A", sampleIndicators)]⟩ sampleInputs).1.technical_data =
      [("A", sampleIndicators)] ∧
    (run_cycle ["A"] ⟨5, [("A", sampleIndicators)]⟩ sampleInputs).2.1.technical_data =
      [("A", sampleIndicators)] := by
  have h9 := (tech_update_cadence ["A"] ⟨9, [("A", sampleIndicators)]⟩
    sampleInputs).1 (by decide)
  have h5 := (tech_update_cadence ["A"] ⟨5, [("A", sampleIndicators)]⟩
    sampleInputs).2.1 (by decide)
  exact ⟨h9.1, h5.1, h5.2⟩

/-- C2 counterexample: with tracked set {A}, stored indicators for A, and
counter 9, the 10th cycle is an indicator refresh; A's per-instrument
fetch fails (SMA200 transport error), and the cycle publishes an empty
indicator map — A's previously stored `IndicatorSet` is cleared, not
retained. -/
theorem indicator_retention_counterexample :
    fetch_technical_indicators (sampleInputs.techResponses "A") = none ∧
    (⟨9, [("A", sampleIndicators)]⟩ : LoopState).technical_data =
      [("A", sampleIndicators)] ∧
    (run_cycle ["A"] ⟨9, [("A", sampleIndicators)]⟩ sampleInputs).1.technical_data
      = [] ∧
    (run_cycle ["A"] ⟨9, [("A", sampleIndicators)]⟩ sampleInputs).2.1.technical_data
      = [] := by
  refine ⟨by with_unfolding_all rfl, rfl, ?_, ?_⟩ <;> with_unfolding_all rfl

/-- C2 amended: on an indicator-refresh cycle, an instrument whose whole
per-instrument fetch fails is dropped from that cycle's indicator update;
because the stored map is then replaced wholesale by the successful
subset, the failed instrument's previously stored `IndicatorSet` is
discarded rather than retained. -/
theorem indicator_failure_drops_instrument
    (responses : String → IndicatorResponses) (symbols : List String)
    (s : String) (hfail : fetch_technical_indicators (responses s) = none) :
    (∀ d, (s, d) ∉ fetch_all_technical_data responses symbols) ∧
    (∀ st inputs, inputs.techResponses = responses →
      (st.cycle_count + 1) % TECH_UPDATE_INTERVAL = 0 →
      (run_cycle symbols st inputs).1.technical_data =
        fetch_all_technical_data responses symbols ∧
      ∀ d, (s, d) ∉ (run_cycle symbols st inputs).1.technical_data) := by
  have hnot : ∀ d, (s, d) ∉ fetch_all_technical_data responses symbols := by
    intro d hmem
    rw [mem_fetch_all_technical_data] at hmem
    rw [hfail] at hmem
    exact Option.noConfusion hmem.2
  refine ⟨hnot, ?_⟩
  intro st inputs hresp hmod
  have heq : (run_cycle symbols st inputs).1.technical_data =
      fetch_all_technical_data responses symbols := by
    rw [(run_cycle_technical_data symbols st inputs).1, if_pos hmod, hresp]
  exact ⟨heq, fun d => heq ▸ hnot d⟩

/-- C2 amended witness: at the concrete failing refresh above, A has no
entry in the refreshed map. -/
theorem indicator_failure_drops_instrument_witness :
    (∀ d, ("A", d) ∉
      fetch_all_technical_data sampleInputs.techResponses ["A"]) ∧
    (run_cycle ["A"] ⟨9, [("A", sampleIndicators)]⟩ sampleInputs).1.technical_data =
      fetch_all_technical_data sampleInputs.techResponses ["A"] := by
  have h := indicator_failure_drops_instrument sampleInputs.techResponses
    ["A"] "A" (by with_unfolding_all rfl)
  exact ⟨h.1, (h.2 ⟨9, [("A", sampleIndicators)]⟩ sampleInputs rfl (by decide)).1⟩

/-- C5 counterexample: responses in which exactly one sub-indicator call
(SMA200) fails in transport while the four others succeed; the `?`
operator propagates the failure, so `fetch_technical_indicators` fails as
a whole (`none`) — the transport failure is not confined to the
sub-indicator scope, contradicting the claim. -/
theorem sub_indicator_failure_counterexample :
    fetch_indicator_value failingSma200.sma50resp "sma" = some (some 42) ∧
    fetch_indicator_value failingSma200.sma200resp "sma" = none ∧
    fetch_indicator_value failingSma200.rsiresp "rsi" = some none ∧
    fetch_indicator_value failingSma200.macdresp "macd" = some none ∧
    fetch_bbands failingSma200.bbandsresp = some (none, none, none) ∧
    fetch_technical_indicators failingSma200 = none ∧
    fetch_technical_indicators allGoodResponses =
      some ⟨some 42, some 42, none, none, none, none, none⟩ := by
  refine ⟨?_, ?_, ?_, ?_, ?_, ?_, ?_⟩ <;> with_unfolding_all rfl

/-- C5 amended: within one instrument's indicator refresh, a successfully
decoded sub-indicator response whose keyed value is absent yields None for
that field only (a present but unparseable scalar yields Some 0.0, and an
unparseable band yields None); but a transport/decode failure of any
single sub-indicator call fails the whole IndicatorSet for that
instrument, which is then dropped from the wave's update — the wave and
the cycle continue, other instruments being unaffected. -/
theorem sub_indicator_scope_spec (json latest : Json) (rest : List Json)
    (indicator : String)
    (hv : (json.get "values").asArray = some (latest :: rest)) :
    ((latest.get indicator).asStr = none →
      fetch_indicator_value (some json) indicator = some none) ∧
    (∀ s, (latest.get indicator).asStr = some s → parseF64 s = none →
      fetch_indicator_value (some json) indicator = some (some 0)) ∧
    (∀ r : IndicatorResponses,
      r.sma50resp = none ∨ r.sma200resp = none ∨ r.rsiresp = none ∨
        r.macdresp = none ∨ r.bbandsresp = none →
      fetch_technical_indicators r = none) ∧
    (∀ responses symbols s, fetch_technical_indicators (responses s) = none →
      (∀ d, (s, d) ∉ fetch_all_technical_data responses symbols) ∧
      ∀ y d, (y, d) ∈ fetch_all_technical_data responses symbols ↔
        y ∈ symbols ∧ fetch_technical_indicators (responses y) = some d) := by
  refine ⟨?_, ?_, ?_, ?_⟩
  · intro habs
    unfold fetch_indicator_value
    rw [Option.map_some', hv]
    simp [habs]
  · intro s hs hparse
    unfold fetch_indicator_value
    rw [Option.map_some', hv]
    simp [hs, hparse]
  · intro r hfail
    unfold fetch_technical_indicators
    rcases hfail with h | h | h | h | h <;> rw [h]
    · rfl
    · cases hx : fetch_indicator_value r.sma50resp "sma" <;> rfl
    · cases hx : fetch_indicator_value r.sma50resp "sma" <;>
        [skip; cases hy : fetch_indicator_value r.sma200resp "sma"] <;> rfl
    · cases hx : fetch_indicator_value r.sma50resp "sma"
      · rfl
      cases hy : fetch_indicator_value r.sma200resp "sma"
      · rfl
      cases hz : fetch_indicator_value r.rsiresp "rsi" <;> rfl
    · cases hx : fetch_indicator_value r.sma50resp "sma"
      · rfl
      cases hy : fetch_indicator_value r.sma200resp "sma"
      · rfl
      cases hz : fetch_indicator_value r.rsiresp "rsi"
      · rfl
      cases hw : fetch_indicator_value r.macdresp "macd" <;> rfl
  · intro responses symbols s hfail
    constructor
    · intro d hmem
      rw [mem_fetch_all_technical_data] at hmem
      rw [hfail] at hmem
      exact Option.noConfusion hmem.2
    · intro y d
      exact mem_fetch_all_technical_data responses symbols y d

/-- C5 amended witness: a response with no "rsi" key yields Ok(None) for
that field; the concrete one-failure responses fail as a whole while the
all-success responses for another instrument are kept by the wave. -/
theorem sub_indicator_scope_spec_witness :
    fetch_indicator_value (some goodSmaJson) "rsi" = some none ∧
    fetch_technical_indicators failingSma200 = none ∧
    (∀ d, ("A", d) ∉ fetch_all_technical_data
      (fun s => if s = "A" then failingSma200 else allGoodResponses)
      ["A", "B"]) ∧
    ("B", ⟨some 42, some 42, none, none, none, none, none⟩) ∈
      fetch_all_technical_data
        (fun s => if s = "A" then failingSma200 else allGoodResponses)
        ["A", "B"] := by
  have hspec := sub_indicator_scope_spec goodSmaJson
    (.obj [("sma", .str "42")]) [] "rsi" (by with_unfolding_all rfl)
  have h1 := hspec.1 (by with_unfolding_all rfl)
  have h2 := hspec.2.2.1 failingSma200 (by right; left; rfl)
  have h4 := hspec.2.2.2
    (fun s => if s = "A" then failingSma200 else allGoodResponses)
    ["A", "B"] "A" h2
  refine ⟨h1, h2, h4.1, ?_⟩
  rw [h4.2 "B" ⟨some 42, some 42, none, none, none, none, none⟩]
  exact ⟨by simp, by with_unfolding_all rfl⟩

/-- C7: the loop's break decision equals the post-publish poll seeing the
quit key, for every combination of fetch outcomes (a fetch failure never
terminates); a trace in which no poll sees the quit key completes every
cycle; and once cycle n's poll sees the quit key the loop stops there —
the inputs after position n are never consumed, i.e. no cycle n+1 fan-out
starts. -/
theorem loop_termination_spec (symbols : List String) (st : LoopState) :
    (∀ inputs, (run_cycle symbols st inputs).2.2 = true ↔
      inputs.pollEvent = some 'q') ∧
    (∀ trace : List CycleInputs, (∀ i ∈ trace, i.pollEvent ≠ some 'q') →
      (run_loop symbols st trace).length = trace.length) ∧
    (∀ pre qin rest, (∀ i ∈ pre, i.pollEvent ≠ some 'q') →
      qin.pollEvent = some 'q' →
      run_loop symbols st (pre ++ qin :: rest) =
        run_loop symbols st (pre ++ [qin])) := by
  refine ⟨?_, ?_, ?_⟩
  · intro inputs
    show decide (inputs.pollEvent = some 'q') = true ↔ _
    exact decide_eq_true_iff
  · intro trace
    induction trace generalizing st with
    | nil => intro _; rfl
    | cons hd tl ih =>
      intro h
      have hq : (run_cycle symbols st hd).2.2 = false := by
        rw [Bool.eq_false_iff]
        intro hc
        exact h hd (List.mem_cons_self hd tl)
          (decide_eq_true_iff.mp hc)
      show (if (run_cycle symbols st hd).2.2 then _ else _ : List Snapshot).length = _
      rw [hq]
      simp only [Bool.false_eq_true, if_false, List.length_cons]
      rw [ih ((run_cycle symbols st hd).1) (fun i hi => h i (List.mem_cons_of_mem hd hi))]
  · intro pre qin rest hpre hq
    induction pre generalizing st with
    | nil =>
      rw [List.nil_append, List.nil_append]
      show (if (run_cycle symbols st qin).2.2 then _ else _) =
        (if (run_cycle symbols st qin).2.2 then _ else _ : List Snapshot)
      have hqt : (run_cycle symbols st qin).2.2 = true := decide_eq_true hq
      rw [hqt]
      rfl
    | cons hd tl ih =>
      rw [List.cons_append, List.cons_append]
      have hne : (run_cycle symbols st hd).2.2 = false := by
        rw [Bool.eq_false_iff]
        intro hc
        exact hpre hd (List.mem_cons_self hd tl) (decide_eq_true_iff.mp hc)
      show (if (run_cycle symbols st hd).2.2 then _ else _) =
        (if (run_cycle symbols st hd).2.2 then _ else _ : List Snapshot)
      rw [hne]
      simp only [Bool.false_eq_true, if_false]
      rw [ih ((run_cycle symbols st hd).1)
        (fun i hi => hpre i (List.mem_cons_of_mem hd hi))]

/-- C7 witness: with a three-cycle trace whose second poll sees 'q', the
loop publishes exactly two snapshots and the third cycle never starts;
with no quit in the trace all three cycles run; and a cycle with every
fetch failing does not break the loop. -/
theorem loop_termination_spec_witness :
    (run_cycle ["A"] initialState sampleInputs).2.2 = false ∧
    (run_loop ["A"] initialState
      [sampleInputs, sampleInputs, sampleInputs]).length = 3 ∧
    run_loop ["A"] initialState
        [sampleInputs,
         ⟨sampleInputs.quoteOutcome, sampleInputs.newsOutcome,
          sampleInputs.techResponses, some 'q'⟩,
         sampleInputs] =
      run_loop ["A"] initialState
        [sampleInputs,
         ⟨sampleInputs.quoteOutcome, sampleInputs.newsOutcome,
          sampleInputs.techResponses, some 'q'⟩] := by
  have hspec := loop_termination_spec ["A"] initialState
  refine ⟨?_, ?_, ?_⟩
  · rw [Bool.eq_false_iff]
    intro hc
    exact Option.noConfusion ((hspec.1 sampleInputs).mp hc)
  · refine hspec.2.1 [sampleInputs, sampleInputs, sampleInputs] ?_
    intro i hi hqi
    simp only [List.mem_cons, List.not_mem_nil, or_false] at hi
    rcases hi with rfl | rfl | rfl <;>
      · rw [show sampleInputs.pollEvent = none from rfl] at hqi
        exact Option.noConfusion hqi
  · refine hspec.2.2 [sampleInputs]
      ⟨sampleInputs.quoteOutcome, sampleInputs.newsOutcome,
        sampleInputs.techResponses, some 'q'⟩ [sampleInputs] ?_ rfl
    intro i hi hqi
    simp only [List.mem_cons, List.not_mem_nil, or_false] at hi
    subst hi
    rw [show sampleInputs.pollEvent = none from rfl] at hqi
    exact Option.noConfusion hqi

/-- C9: one cycle's pipeline is a deterministic function of the provider
responses and the carried-over state: two runs whose outcome functions
agree pointwise produce snapshots equal in every field (quote map, news
map, indicator map, and the three rendered paragraph contents) and equal
successor states. -/
theorem cycle_deterministic (symbols : List String) (st : LoopState)
    (i1 i2 : CycleInputs)
    (hq : ∀ s, i1.quoteOutcome s = i2.quoteOutcome s)
    (hn : ∀ s, i1.newsOutcome s = i2.newsOutcome s)
    (ht : ∀ s, i1.techResponses s = i2.techResponses s) :
    (run_cycle symbols st i1).2.1 = (run_cycle symbols st i2).2.1 ∧
    (run_cycle symbols st i1).1 = (run_cycle symbols st i2).1 := by
  have hstock : fetch_all_stock_data i1.quoteOutcome symbols =
      fetch_all_stock_data i2.quoteOutcome symbols :=
    filterMap_congr_of_eq _ _ symbols (fun a => by rw [hq a])
  have hnews : ∀ sd, fetch_relevant_news i1.newsOutcome sd =
      fetch_relevant_news i2.newsOutcome sd := by
    intro sd
    rw [fetch_relevant_news_eq_filterMap, fetch_relevant_news_eq_filterMap]
    exact filterMap_congr_of_eq _ _ sd (fun a => by rw [hn a.1])
  have htech : fetch_all_technical_data i1.techResponses symbols =
      fetch_all_technical_data i2.techResponses symbols :=
    filterMap_congr_of_eq _ _ symbols (fun a => by rw [ht a])
  unfold run_cycle
  refine ⟨?_, ?_⟩ <;> simp only [hstock, hnews, htech]

/-- C9 witness: at concrete inputs built from the same outcome functions,
the two runs' snapshots and states coincide. -/
theorem cycle_deterministic_witness :
    (run_cycle ["A"] initialState sampleInputs).2.1 =
      (run_cycle ["A"] initialState
        ⟨sampleInputs.quoteOutcome, sampleInputs.newsOutcome,
         sampleInputs.techResponses, some 'q'⟩).2.1 := by
  exact (cycle_deterministic ["A"] initialState sampleInputs
    ⟨sampleInputs.quoteOutcome, sampleInputs.newsOutcome,
     sampleInputs.techResponses, some 'q'⟩
    (fun s => rfl) (fun s => rfl) (fun s => rfl)).1

/-- C8: for a series with at least two points and a positive previous
close, the rendered stock line carries the green price span and one change
span computed from the same two-point percent change as the news trigger:
red " dropped …" exactly when the percent change is below −1.0, green
" increased …" otherwise. -/
theorem display_change_label_spec (symbol : String)
    (data latest previous : Json) (rest : List Json)
    (more : List (String × Json))
    (hv : (data.get "values").asArray = some (latest :: previous :: rest))
    (hp : 0 < close_price previous) :
    trigger_percent_change data =
      some (((close_price latest - close_price previous) /
        close_price previous) * 100) ∧
    format_stock_data ((symbol, data) :: more) =
      [⟨symbol ++ ": " ++ formatFixed2 (close_price latest), TuiColor.green⟩,
       if ((close_price latest - close_price previous) /
            close_price previous) * 100 < -1 then
         ⟨" dropped " ++ formatFixed2 (((close_price latest -
            close_price previous) / close_price previous) * 100) ++ "%",
          TuiColor.red⟩
       else
         ⟨" increased " ++ formatFixed2 (((close_price latest -
            close_price previous) / close_price previous) * 100) ++ "%",
          TuiColor.green⟩] :: format_stock_data more := by
  constructor
  · unfold trigger_percent_change
    rw [hv]
    simp [hp]
  · rw [format_stock_data, hv]
    by_cases hc : ((close_price latest - close_price previous) /
        close_price previous) * 100 < -1
    · simp [hp, hc]
    · simp [hp, hc]

/-- C8 witness: series 98/100 (−2%) renders a red " dropped -2.00%" span;
series 110/100 (+10%) renders a green " increased 10.00%" span, and the
trigger computes the same values. -/
theorem display_change_label_spec_witness :
    format_stock_data [("AAPL", sampleSeries ["98", "100"])] =
      [[⟨"AAPL: 98.00", TuiColor.green⟩,
        ⟨" dropped -2.00%", TuiColor.red⟩]] ∧
    format_stock_data [("AAPL", sampleSeries ["110", "100"])] =
      [[⟨"AAPL: 110.00", TuiColor.green⟩,
        ⟨" increased 10.00%", TuiColor.green⟩]] ∧
    trigger_percent_change (sampleSeries ["98", "100"]) = some (-2) := by
  have hp : (0 : ℚ) < close_price (samplePoint "100") := by
    rw [show close_price (samplePoint "100") = 100 from by with_unfolding_all rfl]
    norm_num
  have h98 := display_change_label_spec "AAPL" (sampleSeries ["98", "100"])
    (samplePoint "98") (samplePoint "100") [] []
    (by with_unfolding_all rfl) hp
  have h110 := display_change_label_spec "AAPL" (sampleSeries ["110", "100"])
    (samplePoint "110") (samplePoint "100") [] []
    (by with_unfolding_all rfl) hp
  have e98 : close_price (samplePoint "98") = 98 := by with_unfolding_all rfl
  have e110 : close_price (samplePoint "110") = 110 := by with_unfolding_all rfl
  have e100 : close_price (samplePoint "100") = 100 := by with_unfolding_all rfl
  refine ⟨?_, ?_, ?_⟩
  · rw [h98.2]
    with_unfolding_all rfl
  · rw [h110.2]
    with_unfolding_all rfl
  · rw [h98.1, e98, e100]
    congr 1
    norm_num

/-- C10: quote processing is total over arbitrary response shapes — a
missing or unparseable "close" string is substituted by 0.0, so a series
whose latest point has such a close is still rendered (price "0.00")
rather than omitted, and a series whose previous point has such a close
(hence previous close 0.0, non-positive) yields no percent change and is
never flagged for a news fetch. -/
theorem quote_processing_total_spec (symbol : String) (data latest : Json)
    (restVals : List Json) (more : List (String × Json))
    (hv : (data.get "values").asArray = some (latest :: restVals))
    (hbad : (latest.get "close").asStr = none ∨
      ∃ s, (latest.get "close").asStr = some s ∧ parseF64 s = none) :
    close_price latest = 0 ∧
    (∃ tail, format_stock_data ((symbol, data) :: more) =
      (⟨symbol ++ ": " ++ "0.00", TuiColor.green⟩ :: tail) ::
        format_stock_data more) ∧
    (∀ data2 latest2 rest2,
      (data2.get "values").asArray = some (latest2 :: latest :: rest2) →
      trigger_percent_change data2 = none ∧ flagged_for_news data2 = false) := by
  have hzero : close_price latest = 0 := by
    unfold close_price
    rcases hbad with h | ⟨s, hs, hparse⟩
    · rw [h]
      show (parseF64 "0").getD 0 = 0
      rw [show parseF64 "0" = some 0 from by with_unfolding_all rfl]
      rfl
    · rw [hs]
      show (parseF64 s).getD 0 = 0
      rw [hparse]
      rfl
  have hfmt : formatFixed2 (close_price latest) = "0.00" := by
    rw [hzero]
    with_unfolding_all rfl
  refine ⟨hzero, ?_, ?_⟩
  · rw [format_stock_data, hv]
    cases restVals with
    | nil => exact ⟨[], by simp [hfmt]⟩
    | cons previous r2 =>
      by_cases hp : close_price previous > 0
      · refine ⟨[if ((close_price latest - close_price previous) /
            close_price previous) * 100 < -1 then
            ⟨" dropped " ++ formatFixed2 (((close_price latest -
               close_price previous) / close_price previous) * 100) ++ "%",
             TuiColor.red⟩
          else
            ⟨" increased " ++ formatFixed2 (((close_price latest -
               close_price previous) / close_price previous) * 100) ++ "%",
             TuiColor.green⟩], ?_⟩
        by_cases hc : ((close_price latest - close_price previous) /
            close_price previous) * 100 < -1
        · simp [hp, hc, hfmt]
        · simp [hp, hc, hfmt]
      · exact ⟨[], by simp [hp, hfmt]⟩
  · intro data2 latest2 rest2 hv2
    have htr : trigger_percent_change data2 = none := by
      unfold trigger_percent_change
      rw [hv2]
      simp [hzero]
    refine ⟨htr, ?_⟩
    unfold flagged_for_news
    rw [htr]

/-- C10 witness: a one-point series whose close is the unparseable string
"abc" is still rendered as "S: 0.00"; a series whose previous close is
"abc" yields no percent change and no flag. -/
theorem quote_processing_total_spec_witness :
    close_price (samplePoint "abc") = 0 ∧
    (∃ tail, format_stock_data [("S", sampleSeries ["abc"])] =
      [⟨"S: " ++ "0.00", TuiColor.green⟩ :: tail]) ∧
    trigger_percent_change (sampleSeries ["110", "abc"]) = none ∧
    flagged_for_news (sampleSeries ["110", "abc"]) = false := by
  have h := quote_processing_total_spec "S" (sampleSeries ["abc"])
    (samplePoint "abc") [] []
    (by with_unfolding_all rfl)
    (Or.inr ⟨"abc", by with_unfolding_all rfl, by with_unfolding_all rfl⟩)
  have h2 := h.2.2 (sampleSeries ["110", "abc"]) (samplePoint "110") []
    (by with_unfolding_all rfl)
  obtain ⟨tail, htail⟩ := h.2.1
  exact ⟨h.1, ⟨tail, htail⟩, h2.1, h2.2⟩
